import Mathlib

/-!
Shallow embedding of the `cld1015-mpm210h` photonics sweep program.

The program drives two instruments (a Thorlabs CLD1015 laser driver over a
VISA bus, a Santec MPM210H power meter over TCP) and runs a current sweep,
recording optical power per step.  Device I/O is modelled by an environment
`Env` of oracles: each write/send attempt consults a success oracle indexed
by the number of prior attempts on that transport, and each read/receive
consults a response oracle.  Every operation returns an `Except` result, the
updated state, and the list of wire-level events it attempted, in order.

Rust `f64` values are modelled as exact fractions (all the currents and
comparisons the program performs are exact), `u8`/`u32`/`u64` as `ℕ`, and
the RFC3339 UTC timestamp as a `ℕ` drawn from the environment clock
`Env.times` (the rendering of a time point to an ISO-8601 string is
order-preserving and out of scope).  Blocking sleeps have no observable
effect in this model and are elided.
-/

/-! ### Executable models of `f64` arithmetic and of the string primitives

The Rust code computes with `f64` and with `str` methods (`trim`, `split`,
`starts_with`, `to_lowercase`, `contains`).  Every numeric value the program
manipulates is an exact decimal, so `f64` is modelled by an exact fraction
type `Fx`; the string methods are modelled by structurally recursive
functions over the character list of the string.  (Mathlib's `ℚ` operations
and core's `String` methods are deliberately not used in the embedding:
these models are definitionally computable, so theorems can evaluate them.)
-/

deriving instance DecidableEq for Except

/-- An exact fraction `num / den`, modelling an `f64` value.  All values the
program constructs have a positive denominator (literals have denominator 1,
and the one division is by 1000). -/
structure Fx where
  num : Int
  den : Nat
  deriving DecidableEq, Repr

instance (n : Nat) : OfNat Fx n := ⟨⟨n, 1⟩⟩

instance : LE Fx := ⟨fun x y => x.num * (y.den : Int) ≤ y.num * (x.den : Int)⟩

instance : LT Fx := ⟨fun x y => x.num * (y.den : Int) < y.num * (x.den : Int)⟩

instance (x y : Fx) : Decidable (x ≤ y) :=
  inferInstanceAs (Decidable (x.num * (y.den : Int) ≤ y.num * (x.den : Int)))

instance (x y : Fx) : Decidable (x < y) :=
  inferInstanceAs (Decidable (x.num * (y.den : Int) < y.num * (x.den : Int)))

instance : Add Fx :=
  ⟨fun x y => ⟨x.num * (y.den : Int) + y.num * (x.den : Int), x.den * y.den⟩⟩

instance : Sub Fx :=
  ⟨fun x y => ⟨x.num * (y.den : Int) - y.num * (x.den : Int), x.den * y.den⟩⟩

/-- Division of fractions; a negative divisor moves its sign to the
numerator so that the denominator stays a natural number. -/
instance : Div Fx :=
  ⟨fun x y =>
    if y.num < 0 then ⟨-(x.num * (y.den : Int)), x.den * y.num.natAbs⟩
    else ⟨x.num * (y.den : Int), x.den * y.num.natAbs⟩⟩

/-- Floor of a fraction (used only to bound the sweep loop's iteration
count). -/
def Fx.floor (x : Fx) : Int := Int.fdiv x.num x.den

theorem Fx.not_lt_of_le {x y : Fx} (h : x ≤ y) : ¬ y < x :=
  Int.not_lt.mpr h

/-- Decimal rendering of a fraction, standing for Rust's `{}` formatting of
an `f64` in a command string (the exact numeral syntax a command carries is
outside the scope of the claims). -/
def Fx.render (x : Fx) : String :=
  if x.den = 1 then toString x.num else toString x.num ++ "/" ++ toString x.den

/-- Rust `char::is_whitespace`, restricted to the ASCII whitespace the
devices emit. -/
def wsChar (c : Char) : Bool := c = ' ' || c = '\t' || c = '\n' || c = '\r'

/-- Rust `str::trim`: drop whitespace from both ends. -/
def strTrim (s : String) : String :=
  ⟨((s.data.dropWhile wsChar).reverse.dropWhile wsChar).reverse⟩

/-- ASCII lowercasing of one character. -/
def lowerChar (c : Char) : Char :=
  if 'A' ≤ c ∧ c ≤ 'Z' then Char.ofNat (c.toNat + 32) else c

/-- Rust `str::to_lowercase` (the responses involved are ASCII). -/
def strToLower (s : String) : String := ⟨s.data.map lowerChar⟩

/-- Rust `str::starts_with`. -/
def strStartsWith (s pre : String) : Bool := pre.data.isPrefixOf s.data

/-- Helper for `strSplitOn`: scan `l` left to right, cutting at each
occurrence of `sep`; `fuel` (instantiated with the length of `l`) makes the
recursion structural. -/
def splitOnAux (sep : List Char) : Nat → List Char → List Char → List (List Char)
  | _, [], acc => [acc.reverse]
  | 0, l, acc => [acc.reverse ++ l]
  | fuel + 1, c :: rest, acc =>
      if sep.isPrefixOf (c :: rest) then
        acc.reverse :: splitOnAux sep fuel (List.drop (sep.length - 1) rest) []
      else
        splitOnAux sep fuel rest (c :: acc)

/-- Rust `str::split` by a non-empty separator (the program only splits on
`","`): the fields between consecutive separator occurrences, in order,
empty fields included. -/
def strSplitOn (s sep : String) : List String :=
  if sep.data = [] then [s]
  else (splitOnAux sep.data s.data.length s.data []).map fun l => ⟨l⟩

/-- A wire-level event: a command attempted on, or a response received from,
one of the two devices. -/
inductive Event where
  | cldConnectAttempt : Event
  | cldWrite (cmd : String) : Event
  | cldRead (resp : String) : Event
  | mpmConnectAttempt : Event
  | mpmSend (cmd : String) : Event
  | mpmRecv (resp : String) : Event
  deriving DecidableEq, Repr

/-- Connection state of the CLD1015 handle (`device : Option<Instrument>` in
the source) plus transport-attempt counters used to index the oracles. -/
structure CldState where
  connected : Bool
  wIdx : Nat
  rIdx : Nat
  deriving DecidableEq, Repr

/-- Connection state of the MPM210H handle (`connection : Option<TcpStream>`)
plus transport-attempt counters. -/
structure MpmState where
  connected : Bool
  sIdx : Nat
  rIdx : Nat
  deriving DecidableEq, Repr

/-- Combined mutable state threaded through a run: both device handles and
the timestamp-call counter. -/
structure SweepSt where
  cld : CldState
  mpm : MpmState
  tick : Nat
  deriving DecidableEq, Repr

/-- The external world: outcomes of transport operations, scripted device
responses, the wall clock, and whether the CSV write succeeds. -/
structure Env where
  cldOpenOk : Bool
  cldWriteOk : Nat → Bool
  cldReadRes : Nat → Except String String
  mpmConnectOk : Bool
  mpmSendOk : Nat → Bool
  mpmRecvRes : Nat → Except String String
  times : Nat → Nat
  saveOk : Bool

/-- Errors of the CLD1015 adapter (`visa_rs::Error` built from `io::Error`
kinds in the source). -/
inductive VisaError where
  | notConnected : VisaError
  | invalidInput (msg : String) : VisaError
  | other (msg : String) : VisaError
  | transport (msg : String) : VisaError
  deriving DecidableEq, Repr

/-- Display of a `VisaError`, standing for Rust's `{}` formatting of the
error in the orchestrator's `format!` calls. -/
def VisaError.toMessage : VisaError → String
  | .notConnected => "Device not connected"
  | .invalidInput m => m
  | .other m => m
  | .transport m => m

/-- Errors of the MPM210H adapter (`MPM210HError` in the source). -/
inductive MpmError where
  | ioError (msg : String) : MpmError
  | parseError (msg : String) : MpmError
  | notConnected : MpmError
  deriving DecidableEq, Repr

/-- Display of an `MPM210HError` (its `thiserror` `Display` impl). -/
def MpmError.toMessage : MpmError → String
  | .ioError m => "IO error: " ++ m
  | .parseError m => "Parse error: " ++ m
  | .notConnected => "Device not connected"

namespace CLD1015

/-- `CLD1015::write`: if connected, append a newline and transmit; the
attempt is recorded as an event, and the transport oracle decides success. -/
def write (cmd : String) (env : Env) (s : SweepSt) :
    Except VisaError Unit × SweepSt × List Event :=
  if s.cld.connected then
    let s1 : SweepSt := { s with cld := { s.cld with wIdx := s.cld.wIdx + 1 } }
    if env.cldWriteOk s.cld.wIdx then
      (Except.ok (), s1, [Event.cldWrite cmd])
    else
      (Except.error (VisaError.transport "write failed"), s1, [Event.cldWrite cmd])
  else
    (Except.error VisaError.notConnected, s, [])

/-- `CLD1015::read`: if connected, read one line and return it trimmed. -/
def read (env : Env) (s : SweepSt) :
    Except VisaError String × SweepSt × List Event :=
  if s.cld.connected then
    let s1 : SweepSt := { s with cld := { s.cld with rIdx := s.cld.rIdx + 1 } }
    match env.cldReadRes s.cld.rIdx with
    | Except.ok line => (Except.ok (strTrim line), s1, [Event.cldRead (strTrim line)])
    | Except.error m => (Except.error (VisaError.transport m), s1, [])
  else
    (Except.error VisaError.notConnected, s, [])

/-- `CLD1015::query`: write, pause, read. -/
def query (cmd : String) (env : Env) (s : SweepSt) :
    Except VisaError String × SweepSt × List Event :=
  match write cmd env s with
  | (Except.ok _, s1, t1) =>
      match read env s1 with
      | (r, s2, t2) => (r, s2, t1 ++ t2)
  | (Except.error e, s1, t1) => (Except.error e, s1, t1)

/-- `CLD1015::connect`: open the VISA resource (2 s timeout), store the
handle, then identify the device with `*IDN?`. -/
def connect (env : Env) (s : SweepSt) :
    Except VisaError String × SweepSt × List Event :=
  if env.cldOpenOk then
    let s1 : SweepSt := { s with cld := { s.cld with connected := true } }
    match query "*IDN?" env s1 with
    | (r, s2, t2) => (r, s2, Event.cldConnectAttempt :: t2)
  else
    (Except.error (VisaError.transport "open failed"), s, [Event.cldConnectAttempt])

/-- `CLD1015::enable_tec`. -/
def enable_tec (env : Env) (s : SweepSt) :
    Except VisaError Unit × SweepSt × List Event :=
  write "OUTPut2:STATe ON" env s

/-- `CLD1015::get_tec_state`: the response means ON when it equals `"ON"`
up to ASCII case or equals `"1"`. -/
def get_tec_state (env : Env) (s : SweepSt) :
    Except VisaError Bool × SweepSt × List Event :=
  match query "OUTPut2:STATe?" env s with
  | (Except.ok r, s1, t1) => (Except.ok (strToLower r == "on" || r == "1"), s1, t1)
  | (Except.error e, s1, t1) => (Except.error e, s1, t1)

/-- `CLD1015::set_current_mode`. -/
def set_current_mode (env : Env) (s : SweepSt) :
    Except VisaError Unit × SweepSt × List Event :=
  write "SOURce:FUNCtion:MODE CURRent" env s

/-- `CLD1015::set_current`: reject any current strictly above the 1.5 A
safety limit before any device I/O, else transmit the set-current command. -/
def set_current (current_amps : Fx) (env : Env) (s : SweepSt) :
    Except VisaError Unit × SweepSt × List Event :=
  if (⟨3, 2⟩ : Fx) < current_amps then
    (Except.error (VisaError.invalidInput
      ("Requested current " ++ current_amps.render ++ " A exceeds the 1.5 A safety limit")),
     s, [])
  else
    write ("SOURce:CURRent:LEVel:IMMediate:AMPLitude " ++ current_amps.render) env s

/-- `CLD1015::set_laser_output`: the enable path first queries the TEC state
and refuses to transmit the laser-on command while the TEC reports OFF. -/
def set_laser_output (enabled : Bool) (env : Env) (s : SweepSt) :
    Except VisaError Unit × SweepSt × List Event :=
  if enabled then
    match get_tec_state env s with
    | (Except.ok tec, s1, t1) =>
        if tec then
          match write "OUTPut:STATe ON" env s1 with
          | (r, s2, t2) => (r, s2, t1 ++ t2)
        else
          (Except.error (VisaError.other "Cannot enable laser: TEC is OFF"), s1, t1)
    | (Except.error e, s1, t1) => (Except.error e, s1, t1)
  else
    write "OUTPut:STATe OFF" env s

/-- `CLD1015::get_laser_output`. -/
def get_laser_output (env : Env) (s : SweepSt) :
    Except VisaError Bool × SweepSt × List Event :=
  match query "OUTPut:STATe?" env s with
  | (Except.ok r, s1, t1) => (Except.ok (strToLower r == "on" || r == "1"), s1, t1)
  | (Except.error e, s1, t1) => (Except.error e, s1, t1)

/-- The laser driver's "no more errors" sentinel: the (trimmed) response
begins with `"0"`. -/
def cldSentinel (resp : String) : Bool := strStartsWith resp "0"

/-- `CLD1015::clear_error_queue`: repeatedly query `SYST:ERR?`, collecting
responses in order, until one begins with `"0"`.  The `fuel` parameter bounds
the unrolling of the source's unbounded `loop`; exhaustion stands for
divergence and is reported as an error. -/
def clear_error_queue (fuel : Nat) (env : Env) (s : SweepSt) :
    Except VisaError (List String) × SweepSt × List Event :=
  match fuel with
  | 0 => (Except.error (VisaError.other "error-queue drain did not terminate"), s, [])
  | fuel + 1 =>
      match query "SYST:ERR?" env s with
      | (Except.ok r, s1, t1) =>
          if cldSentinel r then
            (Except.ok [], s1, t1)
          else
            match clear_error_queue fuel env s1 with
            | (Except.ok rest, s2, t2) => (Except.ok (r :: rest), s2, t1 ++ t2)
            | (Except.error e, s2, t2) => (Except.error e, s2, t1 ++ t2)
      | (Except.error e, s1, t1) => (Except.error e, s1, t1)

/-- Fuel given to the error-queue drain inside `reset` (any bound works:
the drain's outcome there is discarded). -/
def drainFuel : Nat := 64

/-- `CLD1015::reset`: require a connection, issue `*RST`, wait, query
`*OPC?` and fail unless it answers `"1"`, then drain the error queue
best-effort, ignoring its outcome. -/
def reset (env : Env) (s : SweepSt) :
    Except VisaError Unit × SweepSt × List Event :=
  if s.cld.connected then
    match write "*RST" env s with
    | (Except.ok _, s1, t1) =>
        (match query "*OPC?" env s1 with
        | (Except.ok status, s2, t2) =>
            if status != "1" then
              (Except.error (VisaError.other
                ("Reset operation failed, unexpected response: " ++ status)),
               s2, t1 ++ t2)
            else
              match clear_error_queue drainFuel env s2 with
              | (_, s3, t3) => (Except.ok (), s3, t1 ++ t2 ++ t3)
        | (Except.error e, s2, t2) => (Except.error e, s2, t1 ++ t2))
    | (Except.error e, s1, t1) => (Except.error e, s1, t1)
  else
    (Except.error VisaError.notConnected, s, [])

end CLD1015

/-- Model of Rust's `str::contains("no error")` applied to the lowercased
response: the separator splits the string iff it occurs in it. -/
def containsNoError (r : String) : Bool :=
  (strSplitOn (strToLower r) "no error").length != 1

namespace MPM210H

/-- `MPM210H::send_command`: if connected, transmit the newline-terminated
command (attempt recorded as an event, transport oracle decides success),
then pace 10 ms. -/
def send_command (cmd : String) (env : Env) (s : SweepSt) :
    Except MpmError Unit × SweepSt × List Event :=
  if s.mpm.connected then
    let s1 : SweepSt := { s with mpm := { s.mpm with sIdx := s.mpm.sIdx + 1 } }
    if env.mpmSendOk s.mpm.sIdx then
      (Except.ok (), s1, [Event.mpmSend cmd])
    else
      (Except.error (MpmError.ioError "send failed"), s1, [Event.mpmSend cmd])
  else
    (Except.error MpmError.notConnected, s, [])

/-- `MPM210H::read_response`: one bounded receive, trimmed; a failed or
empty receive is an I/O error. -/
def read_response (env : Env) (s : SweepSt) :
    Except MpmError String × SweepSt × List Event :=
  if s.mpm.connected then
    let s1 : SweepSt := { s with mpm := { s.mpm with rIdx := s.mpm.rIdx + 1 } }
    match env.mpmRecvRes s.mpm.rIdx with
    | Except.ok chunk => (Except.ok (strTrim chunk), s1, [Event.mpmRecv (strTrim chunk)])
    | Except.error m => (Except.error (MpmError.ioError m), s1, [])
  else
    (Except.error MpmError.notConnected, s, [])

/-- `MPM210H::query`. -/
def query (cmd : String) (env : Env) (s : SweepSt) :
    Except MpmError String × SweepSt × List Event :=
  match send_command cmd env s with
  | (Except.ok _, s1, t1) =>
      match read_response env s1 with
      | (r, s2, t2) => (r, s2, t1 ++ t2)
  | (Except.error e, s1, t1) => (Except.error e, s1, t1)

/-- `MPM210H::connect`: parse the address and open the TCP stream (both
failure sources folded into the connect oracle), then identify with
`*IDN?`. -/
def connect (env : Env) (s : SweepSt) :
    Except MpmError String × SweepSt × List Event :=
  if env.mpmConnectOk then
    let s1 : SweepSt := { s with mpm := { s.mpm with connected := true } }
    match query "*IDN?" env s1 with
    | (r, s2, t2) => (r, s2, Event.mpmConnectAttempt :: t2)
  else
    (Except.error (MpmError.ioError "connect failed"), s, [Event.mpmConnectAttempt])

/-- `MPM210H::perform_zeroing`: explicit connection check, then `ZERO`. -/
def perform_zeroing (env : Env) (s : SweepSt) :
    Except MpmError Unit × SweepSt × List Event :=
  if s.mpm.connected then
    send_command "ZERO" env s
  else
    (Except.error MpmError.notConnected, s, [])

/-- `MPM210H::read_power`: `READ? <module>` returns the comma-separated
powers of all ports of the module. -/
def read_power (module : Nat) (env : Env) (s : SweepSt) :
    Except MpmError String × SweepSt × List Event :=
  query ("READ? " ++ toString module) env s

/-- `MPM210H::read_power_from_port`: validate the port index 1–4 before any
device I/O, read the module's powers, split on commas, check the field
count, and return the trimmed field at 0-based index `port - 1`. -/
def read_power_from_port (module port : Nat) (env : Env) (s : SweepSt) :
    Except MpmError String × SweepSt × List Event :=
  if port < 1 ∨ 4 < port then
    (Except.error (MpmError.parseError
      ("Invalid port number: " ++ toString port ++ ". Port must be between 1 and 4.")),
     s, [])
  else
    match query ("READ? " ++ toString module) env s with
    | (Except.ok response, s1, t1) =>
        let values := strSplitOn response ","
        let port_index := port - 1
        if values.length ≤ port_index then
          (Except.error (MpmError.parseError
            ("Response doesn't contain enough values. Expected at least "
              ++ toString (port_index + 1) ++ " values, got " ++ toString values.length)),
           s1, t1)
        else
          (Except.ok (strTrim (values.getD port_index "")), s1, t1)
    | (Except.error e, s1, t1) => (Except.error e, s1, t1)

/-- `MPM210H::set_wavelength`. -/
def set_wavelength (wavelength : Nat) (env : Env) (s : SweepSt) :
    Except MpmError Unit × SweepSt × List Event :=
  send_command ("WAV " ++ toString wavelength) env s

/-- The power meter's "no more errors" sentinel: the response starts (after
trimming again) with `"0"`, or contains `"no error"` case-insensitively. -/
def mpmSentinel (resp : String) : Bool :=
  strStartsWith (strTrim resp) "0" || containsNoError resp

/-- `MPM210H::clear_error_queue`: repeatedly query `ERR?`, collecting
responses in order, until one starts (after trimming) with `"0"` or contains
`"no error"` case-insensitively.  `fuel` bounds the source's unbounded
`loop`; exhaustion stands for divergence. -/
def clear_error_queue (fuel : Nat) (env : Env) (s : SweepSt) :
    Except MpmError (List String) × SweepSt × List Event :=
  match fuel with
  | 0 => (Except.error (MpmError.ioError "error-queue drain did not terminate"), s, [])
  | fuel + 1 =>
      match query "ERR?" env s with
      | (Except.ok r, s1, t1) =>
          if mpmSentinel r then
            (Except.ok [], s1, t1)
          else
            match clear_error_queue fuel env s1 with
            | (Except.ok rest, s2, t2) => (Except.ok (r :: rest), s2, t1 ++ t2)
            | (Except.error e, s2, t2) => (Except.error e, s2, t1 ++ t2)
      | (Except.error e, s1, t1) => (Except.error e, s1, t1)

/-- `MPM210H::set_measurement_mode`. -/
def set_measurement_mode (mode : String) (env : Env) (s : SweepSt) :
    Except MpmError Unit × SweepSt × List Event :=
  send_command ("WMOD " ++ mode) env s

/-- `MPM210H::set_average_time`. -/
def set_average_time (avg_ms : Fx) (env : Env) (s : SweepSt) :
    Except MpmError Unit × SweepSt × List Event :=
  send_command ("AVG " ++ avg_ms.render) env s

/-- `MPM210H::set_unit`: only 0 (dBm) and 1 (mW) are accepted. -/
def set_unit (unit : Nat) (env : Env) (s : SweepSt) :
    Except MpmError Unit × SweepSt × List Event :=
  if 1 < unit then
    (Except.error (MpmError.parseError "Unit must be 0 (dBm) or 1 (mW)"), s, [])
  else
    send_command ("UNIT " ++ toString unit) env s

end MPM210H

/-- One sample of the sweep (`MeasurementRecord` in `experiment/data.rs`);
the timestamp is the environment clock reading at record creation. -/
structure MeasurementRecord where
  timestamp : Nat
  current_ma : Fx
  power_dbm : String
  module : Nat
  deriving DecidableEq, Repr

/-- `PowerUnit` in `experiment/mod.rs`. -/
inductive PowerUnit where
  | DBm : PowerUnit
  | MilliWatt : PowerUnit
  deriving DecidableEq, Repr

/-- `CurrentSweepConfig` in `experiment/mod.rs`. -/
structure CurrentSweepConfig where
  module : Nat
  port : Nat
  start_ma : Fx
  stop_ma : Fx
  step_ma : Fx
  stabilization_delay_ms : Nat
  wavelength_nm : Nat
  averaging_time_ms : Fx
  power_unit : PowerUnit

/-- `impl Default for CurrentSweepConfig`. -/
def CurrentSweepConfig.default : CurrentSweepConfig :=
  { module := 0
    port := 2
    start_ma := 10
    stop_ma := 100
    step_ma := 5
    stabilization_delay_ms := 50
    wavelength_nm := 980
    averaging_time_ms := 100
    power_unit := PowerUnit.DBm }

/-- The wire value sent by `UNIT` for each configured power unit. -/
def powerUnitValue : PowerUnit → Nat
  | PowerUnit.DBm => 0
  | PowerUnit.MilliWatt => 1

/-- CSV header produced by `csv::Writer::serialize` from the field order and
`serde(rename)` attributes of `MeasurementRecord`. -/
def MeasurementRecord.csvHeader : List String :=
  ["timestamp", "current_mA", "power_dBm", "module"]

/-- One CSV data row of a record, fields in declaration order. -/
def MeasurementRecord.csvRow (r : MeasurementRecord) : List String :=
  [toString r.timestamp, r.current_ma.render, r.power_dbm, toString r.module]

/-- Content of the file written by `save_measurements_to_csv`: the fixed
header followed by one row per record, in order.  (Filename construction and
directory creation are filesystem I/O, summarized by `Env.saveOk` at the
call site.) -/
def save_measurements_to_csv (data : List MeasurementRecord) : List (List String) :=
  MeasurementRecord.csvHeader :: data.map MeasurementRecord.csvRow

/-- Map a CLD1015 error into the orchestrator's `format!`-built message. -/
def emapC {α : Type} (pre : String)
    (x : Except VisaError α × SweepSt × List Event) :
    Except String α × SweepSt × List Event :=
  match x with
  | (Except.ok a, s, t) => (Except.ok a, s, t)
  | (Except.error e, s, t) => (Except.error (pre ++ e.toMessage), s, t)

/-- Map an MPM210H error into the orchestrator's `format!`-built message. -/
def emapM {α : Type} (pre : String)
    (x : Except MpmError α × SweepSt × List Event) :
    Except String α × SweepSt × List Event :=
  match x with
  | (Except.ok a, s, t) => (Except.ok a, s, t)
  | (Except.error e, s, t) => (Except.error (pre ++ e.toMessage), s, t)

/-- A best-effort step (`let _ = ...` / log-and-continue in the source):
keep the state change and trace, discard the outcome. -/
def bestEffort {ε α : Type}
    (x : Except ε α × SweepSt × List Event) :
    Except String Unit × SweepSt × List Event :=
  match x with
  | (_, s, t) => (Except.ok (), s, t)

/-- Steps of `_run_current_sweep_internal` that precede parameter
validation: connect both devices (each required), reset the laser driver
best-effort, and check/force the laser OFF. -/
def sweepPrelude (env : Env) (s : SweepSt) :
    Except String Unit × SweepSt × List Event :=
  match CLD1015.connect env s with
  | (Except.error e, s1, t1) =>
      (Except.error ("Failed to connect to CLD1015: " ++ e.toMessage), s1, t1)
  | (Except.ok _, s1, t1) =>
      match MPM210H.connect env s1 with
      | (Except.error e, s2, t2) =>
          (Except.error ("Failed to connect to MPM210H: " ++ e.toMessage), s2, t1 ++ t2)
      | (Except.ok _, s2, t2) =>
          match CLD1015.reset env s2 with
          | (_, s3, t3) =>
              match CLD1015.get_laser_output env s3 with
              | (Except.ok true, s4, t4) =>
                  (match CLD1015.set_laser_output false env s4 with
                  | (Except.error e, s5, t5) =>
                      (Except.error ("Failed to turn laser off after reset: " ++ e.toMessage),
                       s5, t1 ++ t2 ++ t3 ++ t4 ++ t5)
                  | (Except.ok _, s5, t5) =>
                      (Except.ok (), s5, t1 ++ t2 ++ t3 ++ t4 ++ t5))
              | (Except.ok false, s4, t4) =>
                  (Except.ok (), s4, t1 ++ t2 ++ t3 ++ t4)
              | (Except.error _, s4, t4) =>
                  match CLD1015.set_laser_output false env s4 with
                  | (_, s5, t5) => (Except.ok (), s5, t1 ++ t2 ++ t3 ++ t4 ++ t5)

/-- The measurement loop of `_run_current_sweep_internal`: while the current
does not exceed `stop`, set it (forcing the laser off on failure), wait,
read the power at `module`/`port` (forcing the laser off on failure), stamp
and append a record, and advance by `step`.  `fuel` bounds the unrolling;
`none` stands for a run that would still be iterating. -/
def sweepLoop (module port : Nat) (stop step : Fx) :
    Nat → Fx → List MeasurementRecord → Env → SweepSt →
    Option (Except String (List MeasurementRecord) × SweepSt × List Event)
  | fuel, current, acc, env, s =>
    if current ≤ stop then
      match fuel with
      | 0 => none
      | fuel + 1 =>
          match CLD1015.set_current (current / 1000) env s with
          | (Except.error e, s1, t1) =>
              match CLD1015.set_laser_output false env s1 with
              | (_, s2, t2) =>
                  some (Except.error ("Failed to set current to " ++ current.render
                          ++ " mA: " ++ e.toMessage), s2, t1 ++ t2)
          | (Except.ok _, s1, t1) =>
              match MPM210H.read_power_from_port module port env s1 with
              | (Except.error e, s2, t2) =>
                  match CLD1015.set_laser_output false env s2 with
                  | (_, s3, t3) =>
                      some (Except.error ("Failed to read power at " ++ current.render
                              ++ " mA from module " ++ toString module ++ ", port "
                              ++ toString port ++ ": " ++ e.toMessage),
                            s3, t1 ++ t2 ++ t3)
              | (Except.ok power, s2, t2) =>
                  let now := env.times s2.tick
                  let s3 : SweepSt := { s2 with tick := s2.tick + 1 }
                  let sample : MeasurementRecord :=
                    { timestamp := now, current_ma := current, power_dbm := power,
                      module := module }
                  match sweepLoop module port stop step fuel (current + step)
                      (acc ++ [sample]) env s3 with
                  | none => none
                  | some (r, s4, t4) => some (r, s4, t1 ++ t2 ++ t4)
    else
      some (Except.ok acc, s, [])

/-- Enough fuel for the loop when the parameters were validated: once
`step > 0` and `start ≤ stop`, the loop runs `⌊(stop-start)/step⌋ + 1`
times. -/
def loopFuel (config : CurrentSweepConfig) : Nat :=
  (((config.stop_ma - config.start_ma) / config.step_ma).floor + 1).toNat

/-- The measurement loop as an orchestrator step. -/
def runSweepLoop (config : CurrentSweepConfig) (env : Env) (s : SweepSt) :
    Except String (List MeasurementRecord) × SweepSt × List Event :=
  match sweepLoop config.module config.port config.stop_ma config.step_ma
      (loopFuel config) config.start_ma [] env s with
  | none => (Except.error "sweep loop did not terminate", s, [])
  | some r => r

/-- Steps of `_run_current_sweep_internal` between validation and the
measurement loop: ensure the TEC is on, zero the power meter, select current
mode, force the laser off, configure the meter (mode, averaging time, unit,
wavelength), and enable the laser output. -/
def sweepConfigure (config : CurrentSweepConfig) (env : Env) (s : SweepSt) :
    Except String Unit × SweepSt × List Event :=
  match emapC "Failed to get TEC state: " (CLD1015.get_tec_state env s) with
  | (Except.error e, s1, t1) => (Except.error e, s1, t1)
  | (Except.ok tec, s1, t1) =>
  match (if tec then (Except.ok (), s1, ([] : List Event))
         else emapC "Failed to enable TEC: " (CLD1015.enable_tec env s1)) with
  | (Except.error e, s2, t2) => (Except.error e, s2, t1 ++ t2)
  | (Except.ok _, s2, t2) =>
  match emapM "Failed to perform zeroing: " (MPM210H.perform_zeroing env s2) with
  | (Except.error e, s3, t3) => (Except.error e, s3, t1 ++ t2 ++ t3)
  | (Except.ok _, s3, t3) =>
  match emapC "Failed to set current mode: " (CLD1015.set_current_mode env s3) with
  | (Except.error e, s4, t4) => (Except.error e, s4, t1 ++ t2 ++ t3 ++ t4)
  | (Except.ok _, s4, t4) =>
  match CLD1015.set_laser_output false env s4 with
  | (_, s5, t5) =>
  match emapM "Failed to set MPM210H measurement mode: "
      (MPM210H.set_measurement_mode "CONST1" env s5) with
  | (Except.error e, s6, t6) => (Except.error e, s6, t1 ++ t2 ++ t3 ++ t4 ++ t5 ++ t6)
  | (Except.ok _, s6, t6) =>
  match emapM "Failed to set MPM210H averaging time: "
      (MPM210H.set_average_time config.averaging_time_ms env s6) with
  | (Except.error e, s7, t7) => (Except.error e, s7, t1 ++ t2 ++ t3 ++ t4 ++ t5 ++ t6 ++ t7)
  | (Except.ok _, s7, t7) =>
  match emapM "Failed to set MPM210H measurement unit: "
      (MPM210H.set_unit (powerUnitValue config.power_unit) env s7) with
  | (Except.error e, s8, t8) =>
      (Except.error e, s8, t1 ++ t2 ++ t3 ++ t4 ++ t5 ++ t6 ++ t7 ++ t8)
  | (Except.ok _, s8, t8) =>
  match emapM "Failed to set MPM210H wavelength: "
      (MPM210H.set_wavelength config.wavelength_nm env s8) with
  | (Except.error e, s9, t9) =>
      (Except.error e, s9, t1 ++ t2 ++ t3 ++ t4 ++ t5 ++ t6 ++ t7 ++ t8 ++ t9)
  | (Except.ok _, s9, t9) =>
  match emapC "Failed to enable laser output: " (CLD1015.set_laser_output true env s9) with
  | (Except.error e, s10, t10) =>
      (Except.error e, s10, t1 ++ t2 ++ t3 ++ t4 ++ t5 ++ t6 ++ t7 ++ t8 ++ t9 ++ t10)
  | (Except.ok _, s10, t10) =>
      (Except.ok (), s10, t1 ++ t2 ++ t3 ++ t4 ++ t5 ++ t6 ++ t7 ++ t8 ++ t9 ++ t10)

/-- Steps of `_run_current_sweep_internal` after parameter validation:
configure (TEC, zeroing, meter setup, laser on), run the measurement loop,
force the laser off best-effort, and persist the records. -/
def sweepAfterValidation (config : CurrentSweepConfig) (env : Env) (s : SweepSt) :
    Except String (List MeasurementRecord) × SweepSt × List Event :=
  match sweepConfigure config env s with
  | (Except.error e, s10, tC) => (Except.error e, s10, tC)
  | (Except.ok _, s10, tC) =>
  match runSweepLoop config env s10 with
  | (Except.error e, s11, t11) => (Except.error e, s11, tC ++ t11)
  | (Except.ok records, s11, t11) =>
  match CLD1015.set_laser_output false env s11 with
  | (_, s12, t12) =>
  if env.saveOk then
    (Except.ok records, s12, tC ++ t11 ++ t12)
  else
    (Except.error "Failed to save CSV: io error", s12, tC ++ t11 ++ t12)

/-- `_run_current_sweep_internal`: connect/reset/laser-check, then validate
`step > 0 ∧ start ≤ stop` (rejecting otherwise), then the configured sweep.
On success the value is the recorded batch (the content persisted to the
CSV file is `save_measurements_to_csv` of it). -/
def _run_current_sweep_internal (config : CurrentSweepConfig) (env : Env) (s : SweepSt) :
    Except String (List MeasurementRecord) × SweepSt × List Event :=
  match sweepPrelude env s with
  | (Except.error e, s1, t1) => (Except.error e, s1, t1)
  | (Except.ok _, s1, t1) =>
      if config.step_ma ≤ 0 ∨ config.stop_ma < config.start_ma then
        (Except.error "Invalid sweep parameters", s1, t1)
      else
        match sweepAfterValidation config env s1 with
        | (r, s2, t2) => (r, s2, t1 ++ t2)

/-- `run_current_sweep`: log and delegate. -/
def run_current_sweep (config : CurrentSweepConfig) (env : Env) (s : SweepSt) :
    Except String (List MeasurementRecord) × SweepSt × List Event :=
  _run_current_sweep_internal config env s

/-- `run_basic_current_sweep`: delegate with the default configuration. -/
def run_basic_current_sweep (env : Env) (s : SweepSt) :
    Except String (List MeasurementRecord) × SweepSt × List Event :=
  _run_current_sweep_internal CurrentSweepConfig.default env s

/-- A freshly constructed pair of device handles: nothing connected, no
transport traffic yet, clock counter at zero. -/
def initialSt : SweepSt :=
  { cld := { connected := false, wIdx := 0, rIdx := 0 }
    mpm := { connected := false, sIdx := 0, rIdx := 0 }
    tick := 0 }

/-- A state with both devices already connected and fresh counters, for
exercising single adapter operations. -/
def connectedSt : SweepSt :=
  { cld := { connected := true, wIdx := 0, rIdx := 0 }
    mpm := { connected := true, sIdx := 0, rIdx := 0 }
    tick := 0 }

/-- Scripted laser-driver responses of a fully successful run: identity,
`*OPC?` answering `"1"`, an empty error queue, laser reported OFF after
reset, and the TEC reported ON at both queries. -/
def happyCldResponses : Nat → String
  | 0 => "THORLABS,CLD1015,M01053290"
  | 1 => "1"
  | 2 => "0,\"No error\""
  | 3 => "0"
  | 4 => "1"
  | 5 => "ON"
  | _ => "0"

/-- Scripted power-meter responses of a fully successful three-step sweep:
identity, then the three `READ?` responses `p1`, `p2`, `p3`. -/
def happyMpmResponses (p1 p2 p3 : String) : Nat → String
  | 0 => "SANTEC,MPM-210H"
  | 1 => p1
  | 2 => p2
  | 3 => p3
  | _ => "0"

/-- An environment in which every transport operation succeeds, the clock
reads `times`, and the meter answers the three power reads with `p1`, `p2`,
`p3`. -/
def happyEnv (times : Nat → Nat) (p1 p2 p3 : String) : Env :=
  { cldOpenOk := true
    cldWriteOk := fun _ => true
    cldReadRes := fun k => Except.ok (happyCldResponses k)
    mpmConnectOk := true
    mpmSendOk := fun _ => true
    mpmRecvRes := fun k => Except.ok (happyMpmResponses p1 p2 p3 k)
    times := times
    saveOk := true }

/-- The sweep configuration of the end-to-end scenario: 10 mA to 20 mA in
5 mA steps, module 0, port 2. -/
def scenarioConfig : CurrentSweepConfig :=
  { module := 0, port := 2, start_ma := 10, stop_ma := 20, step_ma := 5,
    stabilization_delay_ms := 50, wavelength_nm := 980, averaging_time_ms := 100,
    power_unit := PowerUnit.DBm }

/-! ### Evaluation lemmas for the measurement loop -/

/-- A loop whose current already exceeds `stop` ends immediately with the
accumulated records. -/
theorem sweepLoop_done (module port : Nat) (stop step current : Fx) (fuel : Nat)
    (acc : List MeasurementRecord) (env : Env) (s : SweepSt)
    (h : ¬ current ≤ stop) :
    sweepLoop module port stop step fuel current acc env s =
      some (Except.ok acc, s, []) := by
  rw [sweepLoop.eq_def]
  dsimp only
  rw [if_neg h]

/-- One successful loop iteration: the current is set, the power response
`p` is read and its `port`-th field extracted, a record is appended, and the
loop continues at `current + step` with all transport counters advanced. -/
theorem sweepLoop_step_ok (module port : Nat) (stop step current : Fx)
    (fuel : Nat) (acc : List MeasurementRecord) (env : Env) (s : SweepSt) (p : String)
    (hcur : current ≤ stop)
    (hcconn : s.cld.connected = true) (hmconn : s.mpm.connected = true)
    (hw : env.cldWriteOk s.cld.wIdx = true)
    (hsend : env.mpmSendOk s.mpm.sIdx = true)
    (hrecv : env.mpmRecvRes s.mpm.rIdx = Except.ok p)
    (hsafe : ¬ (⟨3, 2⟩ : Fx) < current / 1000)
    (hp1 : 1 ≤ port) (hp4 : port ≤ 4)
    (hlen : port ≤ (strSplitOn (strTrim p) ",").length) :
    sweepLoop module port stop step (fuel + 1) current acc env s =
      match sweepLoop module port stop step fuel (current + step)
          (acc ++ [{ timestamp := env.times s.tick, current_ma := current,
                     power_dbm := strTrim ((strSplitOn (strTrim p) ",").getD (port - 1) ""),
                     module := module }]) env
          { cld := { connected := s.cld.connected, wIdx := s.cld.wIdx + 1, rIdx := s.cld.rIdx },
            mpm := { connected := s.mpm.connected, sIdx := s.mpm.sIdx + 1, rIdx := s.mpm.rIdx + 1 },
            tick := s.tick + 1 } with
      | none => none
      | some (r, s4, t4) =>
          some (r, s4,
            Event.cldWrite ("SOURce:CURRent:LEVel:IMMediate:AMPLitude " ++ (current / 1000).render)
              :: Event.mpmSend ("READ? " ++ toString module)
              :: Event.mpmRecv (strTrim p) :: t4) := by
  rw [sweepLoop, if_pos hcur]
  rw [CLD1015.set_current, if_neg hsafe, CLD1015.write, if_pos hcconn, if_pos hw]
  dsimp only
  rw [MPM210H.read_power_from_port, if_neg (by omega)]
  rw [MPM210H.query, MPM210H.send_command]
  dsimp only
  rw [if_pos hmconn, if_pos hsend]
  dsimp only
  rw [MPM210H.read_response]
  dsimp only
  rw [if_pos hmconn, hrecv]
  dsimp only
  rw [if_neg (by omega)]
  rfl

/-! ### Preservation of the connection flags -/

theorem cld_write_connected (cmd : String) (env : Env) (s : SweepSt) :
    ((CLD1015.write cmd env s).2.1).cld.connected = s.cld.connected := by
  rw [CLD1015.write]
  split
  · split <;> rfl
  · rfl

theorem set_current_connected (c : Fx) (env : Env) (s : SweepSt) :
    ((CLD1015.set_current c env s).2.1).cld.connected = s.cld.connected := by
  rw [CLD1015.set_current]
  split
  · rfl
  · exact cld_write_connected _ env s

theorem mpm_send_cld (cmd : String) (env : Env) (s : SweepSt) :
    ((MPM210H.send_command cmd env s).2.1).cld = s.cld := by
  rw [MPM210H.send_command]
  split
  · split <;> rfl
  · rfl

theorem mpm_read_cld (env : Env) (s : SweepSt) :
    ((MPM210H.read_response env s).2.1).cld = s.cld := by
  rw [MPM210H.read_response]
  split
  · split <;> rfl
  · rfl

theorem mpm_query_cld (cmd : String) (env : Env) (s : SweepSt) :
    ((MPM210H.query cmd env s).2.1).cld = s.cld := by
  rw [MPM210H.query]
  split
  · next s1 t1 heq =>
      have h1 : s1.cld = s.cld := by
        have := mpm_send_cld cmd env s
        rw [heq] at this
        exact this
      split
      next r s2 t2 heq2 =>
        have h2 : s2.cld = s1.cld := by
          have := mpm_read_cld env s1
          rw [heq2] at this
          exact this
        simp [h2, h1]
  · next e s1 t1 heq =>
      have := mpm_send_cld cmd env s
      rw [heq] at this
      exact this

theorem read_power_from_port_cld (module port : Nat) (env : Env) (s : SweepSt) :
    ((MPM210H.read_power_from_port module port env s).2.1).cld = s.cld := by
  rw [MPM210H.read_power_from_port]
  split
  · rfl
  · split
    next response s1 t1 heq =>
      have := mpm_query_cld ("READ? " ++ toString module) env s
      rw [heq] at this
      dsimp only
      split <;> exact this
    next e s1 t1 heq =>
      have := mpm_query_cld ("READ? " ++ toString module) env s
      rw [heq] at this
      exact this

/-- Disabling the laser writes exactly the laser-off command (whether or not
the transport accepts it). -/
theorem set_laser_off_trace (env : Env) (s : SweepSt) (h : s.cld.connected = true) :
    (CLD1015.set_laser_output false env s).2.2 = [Event.cldWrite "OUTPut:STATe OFF"] := by
  rw [CLD1015.set_laser_output, if_neg (by decide), CLD1015.write, if_pos h]
  split <;> rfl

/-! ### C8: loop failures force the laser off -/

/-- C8.  Whenever the measurement loop returns an error - which happens
exactly when a set-current or power-read operation fails inside it - the
last wire event of the loop's trace is an attempted laser-off command,
issued before the error is returned. -/
theorem sweep_loop_failure_forces_laser_off (module port : Nat) (stop step : Fx) :
    ∀ (fuel : Nat) (current : Fx) (acc : List MeasurementRecord) (env : Env) (s : SweepSt)
      (e : String) (s' : SweepSt) (tr : List Event),
      s.cld.connected = true →
      sweepLoop module port stop step fuel current acc env s = some (Except.error e, s', tr) →
      tr.getLast? = some (Event.cldWrite "OUTPut:STATe OFF") := by
  intro fuel
  induction fuel with
  | zero =>
      intro current acc env s e s' tr hconn h
      rw [sweepLoop.eq_def] at h
      dsimp only at h
      by_cases hc : current ≤ stop
      · rw [if_pos hc] at h
        exact absurd h (by simp)
      · rw [if_neg hc] at h
        simp at h
  | succ fuel ih =>
      intro current acc env s e s' tr hconn h
      rw [sweepLoop.eq_def] at h
      dsimp only at h
      by_cases hc : current ≤ stop
      · rw [if_pos hc] at h
        rcases h1 : CLD1015.set_current (current / 1000) env s with ⟨r1, s1, t1⟩
        rw [h1] at h
        have hs1 : s1.cld.connected = true := by
          have hp := set_current_connected (current / 1000) env s
          rw [h1] at hp
          rw [show s1.cld.connected = s.cld.connected from hp]
          exact hconn
        cases r1 with
        | error e1 =>
            dsimp only at h
            rcases h2 : CLD1015.set_laser_output false env s1 with ⟨r2, s2, t2⟩
            rw [h2] at h
            dsimp only at h
            simp only [Option.some.injEq, Prod.mk.injEq] at h
            obtain ⟨-, -, htr⟩ := h
            have ht2 : t2 = [Event.cldWrite "OUTPut:STATe OFF"] := by
              have hq := set_laser_off_trace env s1 hs1
              rw [h2] at hq
              exact hq
            rw [← htr, ht2, List.getLast?_concat]
        | ok u =>
            dsimp only at h
            rcases h2 : MPM210H.read_power_from_port module port env s1 with ⟨r2, s2, t2⟩
            rw [h2] at h
            have hs2 : s2.cld.connected = true := by
              have hp := read_power_from_port_cld module port env s1
              rw [h2] at hp
              rw [show s2.cld = s1.cld from hp]
              exact hs1
            cases r2 with
            | error e2 =>
                dsimp only at h
                rcases h3 : CLD1015.set_laser_output false env s2 with ⟨r3, s3, t3⟩
                rw [h3] at h
                dsimp only at h
                simp only [Option.some.injEq, Prod.mk.injEq] at h
                obtain ⟨-, -, htr⟩ := h
                have ht3 : t3 = [Event.cldWrite "OUTPut:STATe OFF"] := by
                  have hq := set_laser_off_trace env s2 hs2
                  rw [h3] at hq
                  exact hq
                rw [← htr, ht3]
                rw [show t1 ++ t2 ++ [Event.cldWrite "OUTPut:STATe OFF"] =
                      (t1 ++ t2) ++ [Event.cldWrite "OUTPut:STATe OFF"] from rfl,
                    List.getLast?_concat]
            | ok power =>
                dsimp only at h
                rcases h4 : sweepLoop module port stop step fuel (current + step)
                    (acc ++ [{ timestamp := env.times s2.tick, current_ma := current,
                               power_dbm := power, module := module }]) env
                    { cld := s2.cld, mpm := s2.mpm, tick := s2.tick + 1 } with _ | ⟨r4, s4, t4⟩
                · rw [h4] at h
                  exact absurd h (by simp)
                · rw [h4] at h
                  dsimp only at h
                  simp only [Option.some.injEq, Prod.mk.injEq] at h
                  obtain ⟨hr4, -, htr⟩ := h
                  have ht4 : t4.getLast? = some (Event.cldWrite "OUTPut:STATe OFF") :=
                    ih (current + step)
                      (acc ++ [{ timestamp := env.times s2.tick, current_ma := current,
                                 power_dbm := power, module := module }])
                      env { cld := s2.cld, mpm := s2.mpm, tick := s2.tick + 1 }
                      e s4 t4 hs2 (by rw [h4, hr4])
                  rw [← htr]
                  simp [List.getLast?_append, ht4]
      · rw [if_neg hc] at h
        simp at h

/-- An environment whose laser-driver transport rejects every write (all
other channels behave). -/
def cldWriteFailEnv : Env :=
  { cldOpenOk := true, cldWriteOk := fun _ => false, cldReadRes := fun _ => Except.ok "0",
    mpmConnectOk := true, mpmSendOk := fun _ => true, mpmRecvRes := fun _ => Except.ok "0",
    times := fun n => n, saveOk := true }

/-- Witness for C8: a loop whose set-current write fails returns the error
with an attempted laser-off command as the final wire event. -/
theorem sweep_loop_failure_forces_laser_off_witness :
    connectedSt.cld.connected = true ∧
    ([Event.cldWrite "SOURce:CURRent:LEVel:IMMediate:AMPLitude 10/1000",
      Event.cldWrite "OUTPut:STATe OFF"].getLast?
        = some (Event.cldWrite "OUTPut:STATe OFF")) :=
  ⟨rfl,
   sweep_loop_failure_forces_laser_off 0 2 10 5 1 10 [] cldWriteFailEnv connectedSt
     "Failed to set current to 10 mA: write failed"
     ⟨⟨true, 2, 0⟩, ⟨true, 0, 0⟩, 0⟩
     [Event.cldWrite "SOURce:CURRent:LEVel:IMMediate:AMPLitude 10/1000",
      Event.cldWrite "OUTPut:STATe OFF"]
     rfl (by decide)⟩

/-! ### Evaluation of the end-to-end scenario (config 10..20 mA step 5) -/

def stPrelude : SweepSt := ⟨⟨true, 5, 4⟩, ⟨true, 1, 1⟩, 0⟩

def stConfigured : SweepSt := ⟨⟨true, 10, 6⟩, ⟨true, 6, 1⟩, 0⟩

def portField (p : String) : String := strTrim ((strSplitOn (strTrim p) ",").getD 1 "")

theorem happy_loop (times : Nat → Nat) (p1 p2 p3 : String)
    (hl1 : 2 ≤ (strSplitOn (strTrim p1) ",").length)
    (hl2 : 2 ≤ (strSplitOn (strTrim p2) ",").length)
    (hl3 : 2 ≤ (strSplitOn (strTrim p3) ",").length) :
    sweepLoop 0 2 20 5 3 10 [] (happyEnv times p1 p2 p3) stConfigured =
      some (Except.ok [⟨times 0, 10, portField p1, 0⟩, ⟨times 1, 15, portField p2, 0⟩,
                       ⟨times 2, 20, portField p3, 0⟩],
            ⟨⟨true, 13, 6⟩, ⟨true, 9, 4⟩, 3⟩,
            [Event.cldWrite "SOURce:CURRent:LEVel:IMMediate:AMPLitude 10/1000",
             Event.mpmSend "READ? 0", Event.mpmRecv (strTrim p1),
             Event.cldWrite "SOURce:CURRent:LEVel:IMMediate:AMPLitude 15/1000",
             Event.mpmSend "READ? 0", Event.mpmRecv (strTrim p2),
             Event.cldWrite "SOURce:CURRent:LEVel:IMMediate:AMPLitude 20/1000",
             Event.mpmSend "READ? 0", Event.mpmRecv (strTrim p3)]) := by
  rw [sweepLoop_step_ok 0 2 20 5 10 2 [] (happyEnv times p1 p2 p3) stConfigured p1
        (by decide) rfl rfl rfl rfl rfl (by decide) (by decide) (by decide) hl1]
  rw [sweepLoop_step_ok 0 2 20 5 (10 + 5) 1 _ (happyEnv times p1 p2 p3) _ p2
        (by decide) (by rfl) (by rfl) (by rfl) (by rfl) (by rfl) (by decide) (by decide)
        (by decide) hl2]
  rw [sweepLoop_step_ok 0 2 20 5 (10 + 5 + 5) 0 _ (happyEnv times p1 p2 p3) _ p3
        (by decide) (by rfl) (by rfl) (by rfl) (by rfl) (by rfl) (by decide) (by decide)
        (by decide) hl3]
  rw [sweepLoop_done 0 2 20 5 (10 + 5 + 5 + 5) 0 _ (happyEnv times p1 p2 p3) _ (by decide)]
  rfl

theorem happy_prelude (times : Nat → Nat) (p1 p2 p3 : String) :
    sweepPrelude (happyEnv times p1 p2 p3) initialSt =
      (Except.ok (), stPrelude,
       [Event.cldConnectAttempt, Event.cldWrite "*IDN?",
        Event.cldRead "THORLABS,CLD1015,M01053290",
        Event.mpmConnectAttempt, Event.mpmSend "*IDN?", Event.mpmRecv "SANTEC,MPM-210H",
        Event.cldWrite "*RST", Event.cldWrite "*OPC?", Event.cldRead "1",
        Event.cldWrite "SYST:ERR?", Event.cldRead "0,\"No error\"",
        Event.cldWrite "OUTPut:STATe?", Event.cldRead "0"]) := rfl

theorem happy_configure (times : Nat → Nat) (p1 p2 p3 : String) :
    sweepConfigure scenarioConfig (happyEnv times p1 p2 p3) stPrelude =
      (Except.ok (), stConfigured,
       [Event.cldWrite "OUTPut2:STATe?", Event.cldRead "1", Event.mpmSend "ZERO",
        Event.cldWrite "SOURce:FUNCtion:MODE CURRent", Event.cldWrite "OUTPut:STATe OFF",
        Event.mpmSend "WMOD CONST1", Event.mpmSend "AVG 100", Event.mpmSend "UNIT 0",
        Event.mpmSend "WAV 980", Event.cldWrite "OUTPut2:STATe?", Event.cldRead "ON",
        Event.cldWrite "OUTPut:STATe ON"]) := rfl

theorem happy_runLoop (times : Nat → Nat) (p1 p2 p3 : String)
    (hl1 : 2 ≤ (strSplitOn (strTrim p1) ",").length)
    (hl2 : 2 ≤ (strSplitOn (strTrim p2) ",").length)
    (hl3 : 2 ≤ (strSplitOn (strTrim p3) ",").length) :
    runSweepLoop scenarioConfig (happyEnv times p1 p2 p3) stConfigured =
      (Except.ok [⟨times 0, 10, portField p1, 0⟩, ⟨times 1, 15, portField p2, 0⟩,
                  ⟨times 2, 20, portField p3, 0⟩],
       ⟨⟨true, 13, 6⟩, ⟨true, 9, 4⟩, 3⟩,
       [Event.cldWrite "SOURce:CURRent:LEVel:IMMediate:AMPLitude 10/1000",
        Event.mpmSend "READ? 0", Event.mpmRecv (strTrim p1),
        Event.cldWrite "SOURce:CURRent:LEVel:IMMediate:AMPLitude 15/1000",
        Event.mpmSend "READ? 0", Event.mpmRecv (strTrim p2),
        Event.cldWrite "SOURce:CURRent:LEVel:IMMediate:AMPLitude 20/1000",
        Event.mpmSend "READ? 0", Event.mpmRecv (strTrim p3)]) := by
  rw [runSweepLoop]
  rw [show sweepLoop scenarioConfig.module scenarioConfig.port scenarioConfig.stop_ma
        scenarioConfig.step_ma (loopFuel scenarioConfig) scenarioConfig.start_ma []
        (happyEnv times p1 p2 p3) stConfigured =
      sweepLoop 0 2 20 5 3 10 [] (happyEnv times p1 p2 p3) stConfigured from rfl]
  rw [happy_loop times p1 p2 p3 hl1 hl2 hl3]

theorem scenario_run (times : Nat → Nat) (p1 p2 p3 : String)
    (hl1 : 2 ≤ (strSplitOn (strTrim p1) ",").length)
    (hl2 : 2 ≤ (strSplitOn (strTrim p2) ",").length)
    (hl3 : 2 ≤ (strSplitOn (strTrim p3) ",").length) :
    (_run_current_sweep_internal scenarioConfig (happyEnv times p1 p2 p3) initialSt).1 =
      Except.ok [⟨times 0, 10, portField p1, 0⟩, ⟨times 1, 15, portField p2, 0⟩,
                 ⟨times 2, 20, portField p3, 0⟩] := by
  rw [_run_current_sweep_internal, happy_prelude times p1 p2 p3]
  dsimp only
  rw [if_neg (by decide)]
  rw [sweepAfterValidation, happy_configure times p1 p2 p3]
  dsimp only
  rw [happy_runLoop times p1 p2 p3 hl1 hl2 hl3]
  dsimp only
  rw [show CLD1015.set_laser_output false (happyEnv times p1 p2 p3)
        ⟨⟨true, 13, 6⟩, ⟨true, 9, 4⟩, 3⟩ =
      (Except.ok (), ⟨⟨true, 14, 6⟩, ⟨true, 9, 4⟩, 3⟩,
       [Event.cldWrite "OUTPut:STATe OFF"]) from rfl]
  rfl

/-! ### C7: the end-to-end scenario -/

/-- C7 (amended).  With the scenario configuration (10 mA to 20 mA in 5 mA
steps, module 0, port 2), in an environment where every device operation
succeeds (each `READ?` response having at least two comma-separated fields)
and the clock is monotone, the run produces exactly three records with
currents 10, 15, 20 mA in order, each carrying the trimmed port-2 field of
the corresponding response — non-empty whenever that field is non-blank —
with non-decreasing timestamps. -/
theorem sweep_basic_scenario_records (times : Nat → Nat) (p1 p2 p3 : String)
    (hmono : ∀ i j : Nat, i ≤ j → times i ≤ times j)
    (hl1 : 2 ≤ (strSplitOn (strTrim p1) ",").length)
    (hl2 : 2 ≤ (strSplitOn (strTrim p2) ",").length)
    (hl3 : 2 ≤ (strSplitOn (strTrim p3) ",").length)
    (hn1 : portField p1 ≠ "") (hn2 : portField p2 ≠ "") (hn3 : portField p3 ≠ "") :
    ∃ records,
      (_run_current_sweep_internal scenarioConfig (happyEnv times p1 p2 p3) initialSt).1 =
        Except.ok records ∧
      records.length = 3 ∧
      records.map MeasurementRecord.current_ma = [10, 15, 20] ∧
      (∀ r ∈ records, r.power_dbm ≠ "") ∧
      List.Chain' (· ≤ ·) (records.map MeasurementRecord.timestamp) := by
  refine ⟨_, scenario_run times p1 p2 p3 hl1 hl2 hl3, rfl, rfl, ?_, ?_⟩
  · intro r hr
    simp only [List.mem_cons, List.not_mem_nil, or_false] at hr
    rcases hr with h | h | h <;> subst h
    · exact hn1
    · exact hn2
    · exact hn3
  · exact List.chain'_cons.mpr ⟨hmono 0 1 (by omega),
      List.chain'_cons.mpr ⟨hmono 1 2 (by omega), List.chain'_singleton _⟩⟩

/-- Witness for C7: the scenario at an identity clock and the response
`"-12.3,-5.0,-8.1,-20.0"` on each read. -/
theorem sweep_basic_scenario_records_witness :
    ∃ records,
      (_run_current_sweep_internal scenarioConfig
        (happyEnv (fun n => n) "-12.3,-5.0,-8.1,-20.0" "-12.3,-5.0,-8.1,-20.0"
          "-12.3,-5.0,-8.1,-20.0") initialSt).1 = Except.ok records ∧
      records.length = 3 ∧
      records.map MeasurementRecord.current_ma = [10, 15, 20] ∧
      (∀ r ∈ records, r.power_dbm ≠ "") ∧
      List.Chain' (· ≤ ·) (records.map MeasurementRecord.timestamp) :=
  sweep_basic_scenario_records (fun n => n) "-12.3,-5.0,-8.1,-20.0" "-12.3,-5.0,-8.1,-20.0"
    "-12.3,-5.0,-8.1,-20.0" (fun _ _ h => h) (by decide) (by decide) (by decide)
    (by decide) (by decide) (by decide)

/-- Counterexample for C7 as stated: with every device operation succeeding
but the meter answering `",,,"`, the run completes with three records whose
power strings are all empty — "every record carries a non-empty power
string" is not implied by the success of all device operations. -/
theorem sweep_basic_scenario_empty_power :
    (_run_current_sweep_internal scenarioConfig
        (happyEnv (fun n => n) ",,," ",,," ",,,") initialSt).1 =
      Except.ok [⟨0, 10, "", 0⟩, ⟨1, 15, "", 0⟩, ⟨2, 20, "", 0⟩] ∧
    ¬ (∀ r ∈ [(⟨0, 10, "", 0⟩ : MeasurementRecord), ⟨1, 15, "", 0⟩, ⟨2, 20, "", 0⟩],
        r.power_dbm ≠ "") :=
  ⟨(scenario_run (fun n => n) ",,," ",,," ",,," (by decide) (by decide) (by decide)).trans
     (by decide),
   by decide⟩

/-! ### Trace characterizations of the adapter primitives -/

theorem cld_write_events (cmd : String) (env : Env) (s : SweepSt) :
    ∀ e ∈ (CLD1015.write cmd env s).2.2, e = Event.cldWrite cmd := by
  unfold CLD1015.write
  split
  · split <;> simp
  · simp

theorem cld_read_events (env : Env) (s : SweepSt) :
    ∀ e ∈ (CLD1015.read env s).2.2, ∃ r, e = Event.cldRead r := by
  unfold CLD1015.read
  split
  · split <;> simp
  · simp

theorem cld_query_events (cmd : String) (env : Env) (s : SweepSt) :
    ∀ e ∈ (CLD1015.query cmd env s).2.2,
      e = Event.cldWrite cmd ∨ ∃ r, e = Event.cldRead r := by
  unfold CLD1015.query
  split
  · next s1 t1 heq =>
      split
      next r s2 t2 heq2 =>
        intro e he
        rcases List.mem_append.mp he with h1 | h2
        · left
          have := cld_write_events cmd env s
          rw [heq] at this
          exact this e h1
        · right
          have := cld_read_events env s1
          rw [heq2] at this
          exact this e h2
  · next e1 s1 t1 heq =>
      intro e he
      left
      have := cld_write_events cmd env s
      rw [heq] at this
      exact this e he

theorem get_tec_state_trace (env : Env) (s : SweepSt) :
    (CLD1015.get_tec_state env s).2.2 = (CLD1015.query "OUTPut2:STATe?" env s).2.2 := by
  unfold CLD1015.get_tec_state
  split <;> simp_all

/-! ### C1: invalid sweep parameters are rejected, after connection I/O -/

/-- The commands that `_run_current_sweep_internal` may put on the wire
before it validates the sweep parameters: identification on either device,
and the laser driver's reset, completion poll, error-queue drain,
laser-state query and laser-off of the post-reset safety check. -/
def preValidationCmdOk : Event → Prop
  | Event.cldWrite c =>
      c = "*IDN?" ∨ c = "*RST" ∨ c = "*OPC?" ∨ c = "SYST:ERR?" ∨
      c = "OUTPut:STATe?" ∨ c = "OUTPut:STATe OFF"
  | Event.mpmSend c => c = "*IDN?"
  | _ => True

theorem mpm_send_events (cmd : String) (env : Env) (s : SweepSt) :
    ∀ e ∈ (MPM210H.send_command cmd env s).2.2, e = Event.mpmSend cmd := by
  rw [MPM210H.send_command]
  split
  · split <;> simp
  · simp

theorem mpm_recv_events (env : Env) (s : SweepSt) :
    ∀ e ∈ (MPM210H.read_response env s).2.2, ∃ r, e = Event.mpmRecv r := by
  rw [MPM210H.read_response]
  split
  · split <;> simp
  · simp

theorem mpm_query_events (cmd : String) (env : Env) (s : SweepSt) :
    ∀ e ∈ (MPM210H.query cmd env s).2.2,
      e = Event.mpmSend cmd ∨ ∃ r, e = Event.mpmRecv r := by
  rw [MPM210H.query]
  split
  · next s1 t1 heq =>
      split
      next r s2 t2 heq2 =>
        intro e he
        rcases List.mem_append.mp he with h1 | h2
        · left
          have hx := mpm_send_events cmd env s
          rw [heq] at hx
          exact hx e h1
        · right
          have hx := mpm_recv_events env s1
          rw [heq2] at hx
          exact hx e h2
  · next e1 s1 t1 heq =>
      intro e he
      left
      have hx := mpm_send_events cmd env s
      rw [heq] at hx
      exact hx e he

theorem mpm_connect_events (env : Env) (s : SweepSt) :
    ∀ e ∈ (MPM210H.connect env s).2.2,
      e = Event.mpmConnectAttempt ∨ e = Event.mpmSend "*IDN?" ∨ ∃ r, e = Event.mpmRecv r := by
  rw [MPM210H.connect]
  split
  · dsimp only
    intro e he
    rcases List.mem_cons.mp he with h | h
    · exact Or.inl h
    · exact Or.inr (mpm_query_events "*IDN?" env _ e h)
  · simp

theorem cld_connect_events (env : Env) (s : SweepSt) :
    ∀ e ∈ (CLD1015.connect env s).2.2,
      e = Event.cldConnectAttempt ∨ e = Event.cldWrite "*IDN?" ∨ ∃ r, e = Event.cldRead r := by
  rw [CLD1015.connect]
  split
  · dsimp only
    intro e he
    rcases List.mem_cons.mp he with h | h
    · exact Or.inl h
    · exact Or.inr (cld_query_events "*IDN?" env _ e h)
  · simp

theorem cld_drain_events (fuel : Nat) (env : Env) (s : SweepSt) :
    ∀ e ∈ (CLD1015.clear_error_queue fuel env s).2.2,
      e = Event.cldWrite "SYST:ERR?" ∨ ∃ r, e = Event.cldRead r := by
  induction fuel generalizing s with
  | zero => rw [CLD1015.clear_error_queue]; simp
  | succ fuel ih =>
      rw [CLD1015.clear_error_queue]
      split
      · next r s1 t1 heq =>
          have hq := cld_query_events "SYST:ERR?" env s
          rw [heq] at hq
          split
          · exact fun e he => hq e he
          · split <;>
            · next heq2 =>
                intro e he
                rcases List.mem_append.mp he with h | h
                · exact hq e h
                · have hx := ih s1
                  rw [heq2] at hx
                  exact hx e h
      · next e1 s1 t1 heq =>
          have hq := cld_query_events "SYST:ERR?" env s
          rw [heq] at hq
          exact fun e he => hq e he

theorem cld_reset_events (env : Env) (s : SweepSt) :
    ∀ e ∈ (CLD1015.reset env s).2.2,
      e = Event.cldWrite "*RST" ∨ e = Event.cldWrite "*OPC?" ∨
      e = Event.cldWrite "SYST:ERR?" ∨ ∃ r, e = Event.cldRead r := by
  rw [CLD1015.reset]
  split
  · split
    · next s1 t1 heq =>
        have hw := cld_write_events "*RST" env s
        rw [heq] at hw
        split
        · next status s2 t2 heq2 =>
            have hq := cld_query_events "*OPC?" env s1
            rw [heq2] at hq
            split
            · intro e he
              rcases List.mem_append.mp he with h | h
              · exact Or.inl (hw e h)
              · rcases hq e h with h2 | h2
                · exact Or.inr (Or.inl h2)
                · exact Or.inr (Or.inr (Or.inr h2))
            · split
              next heq3 =>
                intro e he
                rcases List.mem_append.mp he with h | h
                rcases List.mem_append.mp h with h1 | h1
                · exact Or.inl (hw e h1)
                · rcases hq e h1 with h2 | h2
                  · exact Or.inr (Or.inl h2)
                  · exact Or.inr (Or.inr (Or.inr h2))
                · have hd := cld_drain_events CLD1015.drainFuel env s2
                  rw [heq3] at hd
                  rcases hd e h with h2 | h2
                  · exact Or.inr (Or.inr (Or.inl h2))
                  · exact Or.inr (Or.inr (Or.inr h2))
        · next e1 s2 t2 heq2 =>
            have hq := cld_query_events "*OPC?" env s1
            rw [heq2] at hq
            intro e he
            rcases List.mem_append.mp he with h | h
            · exact Or.inl (hw e h)
            · rcases hq e h with h2 | h2
              · exact Or.inr (Or.inl h2)
              · exact Or.inr (Or.inr (Or.inr h2))
    · next e1 s1 t1 heq =>
        have hw := cld_write_events "*RST" env s
        rw [heq] at hw
        exact fun e he => Or.inl (hw e he)
  · simp

theorem set_laser_output_false_eq (env : Env) (s : SweepSt) :
    CLD1015.set_laser_output false env s = CLD1015.write "OUTPut:STATe OFF" env s := by
  rw [CLD1015.set_laser_output, if_neg (by decide)]

theorem get_laser_output_trace (env : Env) (s : SweepSt) :
    (CLD1015.get_laser_output env s).2.2 = (CLD1015.query "OUTPut:STATe?" env s).2.2 := by
  rw [CLD1015.get_laser_output]
  split <;> simp_all

theorem pre_of_cld_connect (env : Env) (s : SweepSt) :
    ∀ e ∈ (CLD1015.connect env s).2.2, preValidationCmdOk e := by
  intro e he
  rcases cld_connect_events env s e he with h | h | ⟨r, h⟩ <;> subst h <;>
    simp [preValidationCmdOk]

theorem pre_of_mpm_connect (env : Env) (s : SweepSt) :
    ∀ e ∈ (MPM210H.connect env s).2.2, preValidationCmdOk e := by
  intro e he
  rcases mpm_connect_events env s e he with h | h | ⟨r, h⟩ <;> subst h <;>
    simp [preValidationCmdOk]

theorem pre_of_reset (env : Env) (s : SweepSt) :
    ∀ e ∈ (CLD1015.reset env s).2.2, preValidationCmdOk e := by
  intro e he
  rcases cld_reset_events env s e he with h | h | h | ⟨r, h⟩ <;> subst h <;>
    simp [preValidationCmdOk]

theorem pre_of_glo (env : Env) (s : SweepSt) :
    ∀ e ∈ (CLD1015.get_laser_output env s).2.2, preValidationCmdOk e := by
  intro e he
  rw [get_laser_output_trace] at he
  rcases cld_query_events "OUTPut:STATe?" env s e he with h | ⟨r, h⟩ <;> subst h <;>
    simp [preValidationCmdOk]

theorem pre_of_slo_false (env : Env) (s : SweepSt) :
    ∀ e ∈ (CLD1015.set_laser_output false env s).2.2, preValidationCmdOk e := by
  intro e he
  rw [set_laser_output_false_eq] at he
  have h := cld_write_events "OUTPut:STATe OFF" env s e he
  subst h
  simp [preValidationCmdOk]

theorem sweepPrelude_events (env : Env) (s : SweepSt) :
    ∀ e ∈ (sweepPrelude env s).2.2, preValidationCmdOk e := by
  rw [sweepPrelude]
  split
  · next e1 s1 t1 heq =>
      have h1 := pre_of_cld_connect env s
      rw [heq] at h1
      exact h1
  · next s1 t1 heq =>
      have h1 := pre_of_cld_connect env s
      rw [heq] at h1
      split
      · next e2 s2 t2 heq2 =>
          have h2 := pre_of_mpm_connect env s1
          rw [heq2] at h2
          exact List.forall_mem_append.mpr ⟨h1, h2⟩
      · next s2 t2 heq2 =>
          have h2 := pre_of_mpm_connect env s1
          rw [heq2] at h2
          rcases h3 : CLD1015.reset env s2 with ⟨r3, s3, t3⟩
          have hr := pre_of_reset env s2
          rw [h3] at hr
          dsimp only
          split
          · next s4 t4 heq4 =>
              have h4 := pre_of_glo env s3
              rw [heq4] at h4
              split
              · next e5 s5 t5 heq5 =>
                  have h5 := pre_of_slo_false env s4
                  rw [heq5] at h5
                  exact List.forall_mem_append.mpr
                    ⟨List.forall_mem_append.mpr
                      ⟨List.forall_mem_append.mpr
                        ⟨List.forall_mem_append.mpr ⟨h1, h2⟩, hr⟩, h4⟩, h5⟩
              · next s5 t5 heq5 =>
                  have h5 := pre_of_slo_false env s4
                  rw [heq5] at h5
                  exact List.forall_mem_append.mpr
                    ⟨List.forall_mem_append.mpr
                      ⟨List.forall_mem_append.mpr
                        ⟨List.forall_mem_append.mpr ⟨h1, h2⟩, hr⟩, h4⟩, h5⟩
          · next s4 t4 heq4 =>
              have h4 := pre_of_glo env s3
              rw [heq4] at h4
              exact List.forall_mem_append.mpr
                ⟨List.forall_mem_append.mpr
                  ⟨List.forall_mem_append.mpr ⟨h1, h2⟩, hr⟩, h4⟩
          · next e4 s4 t4 heq4 =>
              have h4 := pre_of_glo env s3
              rw [heq4] at h4
              rcases h5 : CLD1015.set_laser_output false env s4 with ⟨r5, s5, t5⟩
              have hp5 := pre_of_slo_false env s4
              rw [h5] at hp5
              dsimp only
              exact List.forall_mem_append.mpr
                ⟨List.forall_mem_append.mpr
                  ⟨List.forall_mem_append.mpr
                    ⟨List.forall_mem_append.mpr ⟨h1, h2⟩, hr⟩, h4⟩, hp5⟩

def badConfig : CurrentSweepConfig :=
  { module := 0, port := 2, start_ma := 10, stop_ma := 20, step_ma := 0,
    stabilization_delay_ms := 50, wavelength_nm := 980, averaging_time_ms := 100,
    power_unit := PowerUnit.DBm }

/-- C1 (amended).  For every configuration with `step ≤ 0` or
`start > stop`, the sweep returns an error, and the only device traffic the
run may have produced is the pre-validation traffic: connection and
identification of both devices and the laser driver's reset and laser-off
safety check.  No TEC, zeroing, meter-configuration, laser-on or set-current
command is ever issued. -/
theorem sweep_invalid_params_rejected (config : CurrentSweepConfig) (env : Env) (s : SweepSt)
    (hinv : config.step_ma ≤ 0 ∨ config.stop_ma < config.start_ma) :
    (∃ msg, (_run_current_sweep_internal config env s).1 = Except.error msg) ∧
    (∀ e ∈ (_run_current_sweep_internal config env s).2.2, preValidationCmdOk e) := by
  rw [_run_current_sweep_internal]
  split
  · next e1 s1 t1 heq =>
      refine ⟨⟨_, rfl⟩, ?_⟩
      have h := sweepPrelude_events env s
      rw [heq] at h
      exact h
  · next s1 t1 heq =>
      rw [if_pos hinv]
      refine ⟨⟨_, rfl⟩, ?_⟩
      have h := sweepPrelude_events env s
      rw [heq] at h
      exact h

/-- Witness for C1 (amended): a step-0 configuration in an all-success
environment is rejected, and every event of its trace is pre-validation
traffic. -/
theorem sweep_invalid_params_rejected_witness :
    (∃ msg, (_run_current_sweep_internal badConfig
      (happyEnv (fun n => n) "x" "x" "x") initialSt).1 = Except.error msg) ∧
    (∀ e ∈ (_run_current_sweep_internal badConfig
      (happyEnv (fun n => n) "x" "x" "x") initialSt).2.2, preValidationCmdOk e) :=
  sweep_invalid_params_rejected badConfig (happyEnv (fun n => n) "x" "x" "x") initialSt
    (Or.inl (by decide))

/-- Counterexample for C1 as stated: a sweep with `step = 0` is rejected
with "Invalid sweep parameters", yet the trace up to that rejection already
contains device I/O — here the reset command `*RST` sent to the laser
driver (the validation happens only after connect, reset and the laser-off
safety check). -/
theorem sweep_invalid_params_io_before_rejection :
    ((_run_current_sweep_internal badConfig (happyEnv (fun n => n) "x" "x" "x") initialSt).1 =
      Except.error "Invalid sweep parameters") ∧
    Event.cldWrite "*RST" ∈
      (_run_current_sweep_internal badConfig (happyEnv (fun n => n) "x" "x" "x") initialSt).2.2 := by
  constructor
  · rw [_run_current_sweep_internal, happy_prelude (fun n => n) "x" "x" "x"]
    dsimp only
    rw [if_pos (by decide)]
  · rw [_run_current_sweep_internal, happy_prelude (fun n => n) "x" "x" "x"]
    dsimp only
    rw [if_pos (by decide)]
    decide

/-! ### C2: the 1.5 A safety ceiling of `set_current` -/

/-- C2.  A requested current strictly above 1.5 A makes `CLD1015::set_current`
fail with an InvalidInput-class error, leaving the state untouched and
sending nothing; a current at or below the ceiling makes it exactly the
transmission of the set-current command, whose outcome is the transport's. -/
theorem set_current_safety_ceiling (c : Fx) (env : Env) (s : SweepSt) :
    ((⟨3, 2⟩ : Fx) < c →
      CLD1015.set_current c env s =
        (Except.error (VisaError.invalidInput
          ("Requested current " ++ c.render ++ " A exceeds the 1.5 A safety limit")),
         s, [])) ∧
    (c ≤ (⟨3, 2⟩ : Fx) →
      CLD1015.set_current c env s =
        CLD1015.write ("SOURce:CURRent:LEVel:IMMediate:AMPLitude " ++ c.render) env s) := by
  constructor
  · intro h
    rw [CLD1015.set_current, if_pos h]
  · intro h
    rw [CLD1015.set_current, if_neg (Fx.not_lt_of_le h)]

/-- Witness for C2 at 2 A (rejected without I/O) and 1 A (command issued). -/
theorem set_current_safety_ceiling_witness :
    CLD1015.set_current 2 (happyEnv (fun n => n) "" "" "") connectedSt =
      (Except.error (VisaError.invalidInput
        ("Requested current " ++ (2 : Fx).render ++ " A exceeds the 1.5 A safety limit")),
       connectedSt, []) ∧
    CLD1015.set_current 1 (happyEnv (fun n => n) "" "" "") connectedSt =
      CLD1015.write ("SOURce:CURRent:LEVel:IMMediate:AMPLitude " ++ (1 : Fx).render)
        (happyEnv (fun n => n) "" "" "") connectedSt :=
  ⟨(set_current_safety_ceiling 2 _ _).1 (by decide),
   (set_current_safety_ceiling 1 _ _).2 (by decide)⟩

/-! ### C3: no laser-on while the TEC reports OFF -/

/-- C3.  When the TEC-state query reports OFF, enabling the laser output
fails and the trace of the call — exactly the TEC query's trace — never
contains the laser-on command. -/
theorem set_laser_output_tec_off_rejected (env : Env) (s s1 : SweepSt) (t : List Event)
    (h : CLD1015.get_tec_state env s = (Except.ok false, s1, t)) :
    CLD1015.set_laser_output true env s =
      (Except.error (VisaError.other "Cannot enable laser: TEC is OFF"), s1, t) ∧
    Event.cldWrite "OUTPut:STATe ON" ∉ t := by
  constructor
  · rw [CLD1015.set_laser_output, if_pos rfl, h]
    simp
  · intro hmem
    have ht : t = (CLD1015.get_tec_state env s).2.2 := by rw [h]
    rw [ht, get_tec_state_trace] at hmem
    rcases cld_query_events "OUTPut2:STATe?" env s _ hmem with h1 | ⟨r, h2⟩
    · simp at h1
    · exact absurd h2 (by simp)

/-- Environment whose laser driver answers every query with `OFF`. -/
def tecOffEnv : Env :=
  { cldOpenOk := true
    cldWriteOk := fun _ => true
    cldReadRes := fun _ => Except.ok "OFF"
    mpmConnectOk := true
    mpmSendOk := fun _ => true
    mpmRecvRes := fun _ => Except.ok "0"
    times := fun n => n
    saveOk := true }

/-- Witness for C3: with the TEC reporting `OFF`, the laser-enable call
fails and its trace holds only the TEC query and its response. -/
theorem set_laser_output_tec_off_rejected_witness :
    CLD1015.set_laser_output true tecOffEnv connectedSt =
      (Except.error (VisaError.other "Cannot enable laser: TEC is OFF"),
       { cld := { connected := true, wIdx := 1, rIdx := 1 }
         mpm := { connected := true, sIdx := 0, rIdx := 0 }
         tick := 0 },
       [Event.cldWrite "OUTPut2:STATe?", Event.cldRead "OFF"]) ∧
    Event.cldWrite "OUTPut:STATe ON" ∉
      [Event.cldWrite "OUTPut2:STATe?", Event.cldRead "OFF"] :=
  set_laser_output_tec_off_rejected tecOffEnv connectedSt _ _ (by rfl)

/-! ### C4, C5, C6, C9, C10 -/

theorem cld_drain_spec :
    ∀ (j : Nat) (rs : Nat → String) (env : Env) (s : SweepSt) (fuel : Nat),
      s.cld.connected = true → j < fuel →
      (∀ i, i ≤ j → env.cldWriteOk (s.cld.wIdx + i) = true) →
      (∀ i, i ≤ j → env.cldReadRes (s.cld.rIdx + i) = Except.ok (rs i)) →
      CLD1015.cldSentinel (strTrim (rs j)) = true →
      (∀ i, i < j → CLD1015.cldSentinel (strTrim (rs i)) = false) →
      ∃ s2 t2, CLD1015.clear_error_queue fuel env s =
        (Except.ok ((List.range j).map fun i => strTrim (rs i)), s2, t2) := by
  intro j
  induction j with
  | zero =>
      intro rs env s fuel hconn hfuel hw hr hsent hpre
      cases fuel with
      | zero => omega
      | succ f =>
          rw [CLD1015.clear_error_queue]
          rw [CLD1015.query, CLD1015.write, if_pos hconn,
              if_pos (by simpa using hw 0 (Nat.le_refl 0))]
          dsimp only
          rw [CLD1015.read]
          dsimp only
          rw [if_pos hconn,
              show env.cldReadRes s.cld.rIdx = Except.ok (rs 0) by simpa using hr 0 (Nat.le_refl 0)]
          dsimp only
          rw [if_pos hsent]
          exact ⟨_, _, rfl⟩
  | succ j ih =>
      intro rs env s fuel hconn hfuel hw hr hsent hpre
      cases fuel with
      | zero => omega
      | succ f =>
          rw [CLD1015.clear_error_queue]
          rw [CLD1015.query, CLD1015.write, if_pos hconn,
              if_pos (by simpa using hw 0 (Nat.zero_le _))]
          dsimp only
          rw [CLD1015.read]
          dsimp only
          rw [if_pos hconn,
              show env.cldReadRes s.cld.rIdx = Except.ok (rs 0) by simpa using hr 0 (Nat.zero_le _)]
          dsimp only
          rw [hpre 0 (Nat.succ_pos j), if_neg (by decide)]
          obtain ⟨s2, t2, hrec⟩ := ih (fun i => rs (i + 1)) env
            ⟨⟨s.cld.connected, s.cld.wIdx + 1, s.cld.rIdx + 1⟩, s.mpm, s.tick⟩ f
            hconn (by omega)
            (fun i hi => by
              have h := hw (i + 1) (by omega)
              rwa [show s.cld.wIdx + (i + 1) = s.cld.wIdx + 1 + i by omega] at h)
            (fun i hi => by
              have h := hr (i + 1) (by omega)
              rwa [show s.cld.rIdx + (i + 1) = s.cld.rIdx + 1 + i by omega] at h)
            hsent
            (fun i hi => hpre (i + 1) (by omega))
          rw [hrec]
          dsimp only
          exact ⟨s2, [Event.cldWrite "SYST:ERR?"] ++ [Event.cldRead (strTrim (rs 0))] ++ t2,
            by rw [List.range_succ_eq_map, List.map_cons, List.map_map]; exact rfl⟩

theorem mpm_drain_spec :
    ∀ (j : Nat) (rs : Nat → String) (env : Env) (s : SweepSt) (fuel : Nat),
      s.mpm.connected = true → j < fuel →
      (∀ i, i ≤ j → env.mpmSendOk (s.mpm.sIdx + i) = true) →
      (∀ i, i ≤ j → env.mpmRecvRes (s.mpm.rIdx + i) = Except.ok (rs i)) →
      MPM210H.mpmSentinel (strTrim (rs j)) = true →
      (∀ i, i < j → MPM210H.mpmSentinel (strTrim (rs i)) = false) →
      ∃ s2 t2, MPM210H.clear_error_queue fuel env s =
        (Except.ok ((List.range j).map fun i => strTrim (rs i)), s2, t2) := by
  intro j
  induction j with
  | zero =>
      intro rs env s fuel hconn hfuel hw hr hsent hpre
      cases fuel with
      | zero => omega
      | succ f =>
          rw [MPM210H.clear_error_queue]
          rw [MPM210H.query, MPM210H.send_command, if_pos hconn,
              if_pos (by simpa using hw 0 (Nat.le_refl 0))]
          dsimp only
          rw [MPM210H.read_response]
          dsimp only
          rw [if_pos hconn,
              show env.mpmRecvRes s.mpm.rIdx = Except.ok (rs 0) by simpa using hr 0 (Nat.le_refl 0)]
          dsimp only
          rw [if_pos hsent]
          exact ⟨_, _, rfl⟩
  | succ j ih =>
      intro rs env s fuel hconn hfuel hw hr hsent hpre
      cases fuel with
      | zero => omega
      | succ f =>
          rw [MPM210H.clear_error_queue]
          rw [MPM210H.query, MPM210H.send_command, if_pos hconn,
              if_pos (by simpa using hw 0 (Nat.zero_le _))]
          dsimp only
          rw [MPM210H.read_response]
          dsimp only
          rw [if_pos hconn,
              show env.mpmRecvRes s.mpm.rIdx = Except.ok (rs 0) by simpa using hr 0 (Nat.zero_le _)]
          dsimp only
          rw [hpre 0 (Nat.succ_pos j), if_neg (by decide)]
          obtain ⟨s2, t2, hrec⟩ := ih (fun i => rs (i + 1)) env
            ⟨s.cld, ⟨s.mpm.connected, s.mpm.sIdx + 1, s.mpm.rIdx + 1⟩, s.tick⟩ f
            hconn (by omega)
            (fun i hi => by
              have h := hw (i + 1) (by omega)
              rwa [show s.mpm.sIdx + (i + 1) = s.mpm.sIdx + 1 + i by omega] at h)
            (fun i hi => by
              have h := hr (i + 1) (by omega)
              rwa [show s.mpm.rIdx + (i + 1) = s.mpm.rIdx + 1 + i by omega] at h)
            hsent
            (fun i hi => hpre (i + 1) (by omega))
          rw [hrec]
          dsimp only
          exact ⟨s2, [Event.mpmSend "ERR?"] ++ [Event.mpmRecv (strTrim (rs 0))] ++ t2,
            by rw [List.range_succ_eq_map, List.map_cons, List.map_map]; exact rfl⟩

/-- C5.  Each error-queue drain, run on a scripted sequence of responses
whose first sentinel (a response beginning with `"0"` for the laser driver;
beginning with `"0"` after trimming or containing "no error"
case-insensitively for the power meter) sits at index `j`, stops at that
sentinel and returns exactly the `j` responses received before it, in
order. -/
theorem clear_error_queue_drain_spec :
    (∀ (j : Nat) (rs : Nat → String) (env : Env) (s : SweepSt) (fuel : Nat),
      s.cld.connected = true → j < fuel →
      (∀ i, i ≤ j → env.cldWriteOk (s.cld.wIdx + i) = true) →
      (∀ i, i ≤ j → env.cldReadRes (s.cld.rIdx + i) = Except.ok (rs i)) →
      CLD1015.cldSentinel (strTrim (rs j)) = true →
      (∀ i, i < j → CLD1015.cldSentinel (strTrim (rs i)) = false) →
      ∃ s2 t2, CLD1015.clear_error_queue fuel env s =
        (Except.ok ((List.range j).map fun i => strTrim (rs i)), s2, t2)) ∧
    (∀ (j : Nat) (rs : Nat → String) (env : Env) (s : SweepSt) (fuel : Nat),
      s.mpm.connected = true → j < fuel →
      (∀ i, i ≤ j → env.mpmSendOk (s.mpm.sIdx + i) = true) →
      (∀ i, i ≤ j → env.mpmRecvRes (s.mpm.rIdx + i) = Except.ok (rs i)) →
      MPM210H.mpmSentinel (strTrim (rs j)) = true →
      (∀ i, i < j → MPM210H.mpmSentinel (strTrim (rs i)) = false) →
      ∃ s2 t2, MPM210H.clear_error_queue fuel env s =
        (Except.ok ((List.range j).map fun i => strTrim (rs i)), s2, t2)) :=
  ⟨cld_drain_spec, mpm_drain_spec⟩

def drainScript : Nat → String
  | 0 => "-100,\"Command error\""
  | 1 => "-200,\"Execution error\""
  | _ => "0,\"No error\""

def drainEnv : Env :=
  { cldOpenOk := true, cldWriteOk := fun _ => true,
    cldReadRes := fun k => Except.ok (drainScript k),
    mpmConnectOk := true, mpmSendOk := fun _ => true,
    mpmRecvRes := fun k => Except.ok (drainScript k),
    times := fun n => n, saveOk := true }

/-- Witness for C5: both drains on a two-error script ending in a
`0`-sentinel. -/
theorem clear_error_queue_drain_spec_witness :
    (∃ s2 t2, CLD1015.clear_error_queue 8 drainEnv connectedSt =
      (Except.ok ["-100,\"Command error\"", "-200,\"Execution error\""], s2, t2)) ∧
    (∃ s2 t2, MPM210H.clear_error_queue 8 drainEnv connectedSt =
      (Except.ok ["-100,\"Command error\"", "-200,\"Execution error\""], s2, t2)) := by
  constructor
  · obtain ⟨s2, t2, h⟩ := clear_error_queue_drain_spec.1 2 drainScript drainEnv connectedSt 8
      rfl (by omega) (fun i hi => rfl)
      (fun i hi => by interval_cases i <;> rfl)
      (by decide) (fun i hi => by interval_cases i <;> decide)
    rw [show (List.range 2).map (fun i => strTrim (drainScript i)) =
          ["-100,\"Command error\"", "-200,\"Execution error\""] by decide] at h
    exact ⟨s2, t2, h⟩
  · obtain ⟨s2, t2, h⟩ := clear_error_queue_drain_spec.2 2 drainScript drainEnv connectedSt 8
      rfl (by omega) (fun i hi => rfl)
      (fun i hi => by interval_cases i <;> rfl)
      (by decide) (fun i hi => by interval_cases i <;> decide)
    rw [show (List.range 2).map (fun i => strTrim (drainScript i)) =
          ["-100,\"Command error\"", "-200,\"Execution error\""] by decide] at h
    exact ⟨s2, t2, h⟩

/-- C6.  After `*RST` is accepted, `CLD1015::reset` fails with an explicit
error whenever the `*OPC?` completion query answers anything other than
`"1"`, and succeeds when it answers `"1"` — in every environment, i.e.
regardless of how the subsequent best-effort error-queue drain behaves. -/
theorem reset_opc_spec (env : Env) (s s1 s2 : SweepSt) (t1 t2 : List Event) (status : String)
    (hconn : s.cld.connected = true)
    (hw : CLD1015.write "*RST" env s = (Except.ok (), s1, t1))
    (hq : CLD1015.query "*OPC?" env s1 = (Except.ok status, s2, t2)) :
    (status ≠ "1" →
      CLD1015.reset env s =
        (Except.error (VisaError.other
          ("Reset operation failed, unexpected response: " ++ status)), s2, t1 ++ t2)) ∧
    (status = "1" → ∃ s3 t3, CLD1015.reset env s = (Except.ok (), s3, t3)) := by
  constructor
  · intro hne
    rw [CLD1015.reset, if_pos hconn, hw]
    dsimp only
    rw [hq]
    dsimp only
    rw [if_pos (by simpa using hne)]
  · intro heq
    subst heq
    rw [CLD1015.reset, if_pos hconn, hw]
    dsimp only
    rw [hq]
    dsimp only
    rw [if_neg (by decide)]
    rcases h3 : CLD1015.clear_error_queue CLD1015.drainFuel env s2 with ⟨r3, s3, t3⟩
    exact ⟨s3, t1 ++ t2 ++ t3, rfl⟩

def resetDrainFailEnv : Env :=
  { cldOpenOk := true, cldWriteOk := fun _ => true,
    cldReadRes := fun k => if k = 0 then Except.ok "1" else Except.error "read timeout",
    mpmConnectOk := true, mpmSendOk := fun _ => true, mpmRecvRes := fun _ => Except.ok "0",
    times := fun n => n, saveOk := true }

def resetBadOpcEnv : Env :=
  { cldOpenOk := true, cldWriteOk := fun _ => true,
    cldReadRes := fun _ => Except.ok "Reset in progress",
    mpmConnectOk := true, mpmSendOk := fun _ => true, mpmRecvRes := fun _ => Except.ok "0",
    times := fun n => n, saveOk := true }

/-- Witness for C6: a reset whose `*OPC?` answers `\"Reset in progress\"`
fails; one whose `*OPC?` answers `\"1\"` succeeds even though every read of
its error-queue drain then fails. -/
theorem reset_opc_spec_witness :
    CLD1015.reset resetBadOpcEnv connectedSt =
      (Except.error (VisaError.other
        ("Reset operation failed, unexpected response: " ++ "Reset in progress")),
       ⟨⟨true, 2, 1⟩, ⟨true, 0, 0⟩, 0⟩,
       [Event.cldWrite "*RST"] ++ [Event.cldWrite "*OPC?", Event.cldRead "Reset in progress"]) ∧
    (∃ s3 t3, CLD1015.reset resetDrainFailEnv connectedSt = (Except.ok (), s3, t3)) :=
  ⟨(reset_opc_spec resetBadOpcEnv connectedSt ⟨⟨true, 1, 0⟩, ⟨true, 0, 0⟩, 0⟩
      ⟨⟨true, 2, 1⟩, ⟨true, 0, 0⟩, 0⟩ [Event.cldWrite "*RST"]
      [Event.cldWrite "*OPC?", Event.cldRead "Reset in progress"] "Reset in progress"
      rfl rfl rfl).1 (by decide),
   (reset_opc_spec resetDrainFailEnv connectedSt ⟨⟨true, 1, 0⟩, ⟨true, 0, 0⟩, 0⟩
      ⟨⟨true, 2, 1⟩, ⟨true, 0, 0⟩, 0⟩ [Event.cldWrite "*RST"]
      [Event.cldWrite "*OPC?", Event.cldRead "1"] "1"
      rfl rfl rfl).2 rfl⟩

/-- C4.  `MPM210H::read_power_from_port`: a port outside 1..4 fails with a
Parse-class error before any device I/O; for an in-range port whose
comma-separated response has fewer fields than the port number it fails with
a Parse-class error; otherwise it returns the trimmed field at 0-based index
`port - 1`. -/
theorem read_power_from_port_spec (module port : Nat) (env : Env) (s : SweepSt) :
    (port < 1 ∨ 4 < port →
      MPM210H.read_power_from_port module port env s =
        (Except.error (MpmError.parseError
          ("Invalid port number: " ++ toString port ++ ". Port must be between 1 and 4.")),
         s, [])) ∧
    (∀ r s1 t, 1 ≤ port → port ≤ 4 →
      MPM210H.query ("READ? " ++ toString module) env s = (Except.ok r, s1, t) →
      (((strSplitOn r ",").length < port →
        MPM210H.read_power_from_port module port env s =
          (Except.error (MpmError.parseError
            ("Response doesn't contain enough values. Expected at least "
              ++ toString (port - 1 + 1) ++ " values, got "
              ++ toString (strSplitOn r ",").length)), s1, t)) ∧
      (port ≤ (strSplitOn r ",").length →
        MPM210H.read_power_from_port module port env s =
          (Except.ok (strTrim ((strSplitOn r ",").getD (port - 1) "")), s1, t)))) := by
  constructor
  · intro h
    rw [MPM210H.read_power_from_port, if_pos h]
  · intro r s1 t h1 h4 hq
    constructor
    · intro hshort
      rw [MPM210H.read_power_from_port, if_neg (by omega), hq]
      dsimp only
      rw [if_pos (by omega)]
    · intro hlong
      rw [MPM210H.read_power_from_port, if_neg (by omega), hq]
      dsimp only
      rw [if_neg (by omega)]

def mpmResponseEnv (resp : String) : Env :=
  { cldOpenOk := true, cldWriteOk := fun _ => true, cldReadRes := fun _ => Except.ok "0",
    mpmConnectOk := true, mpmSendOk := fun _ => true, mpmRecvRes := fun _ => Except.ok resp,
    times := fun n => n, saveOk := true }

/-- Witness for C4: port 5 is rejected without I/O; port 2 on
`\"-12.3,-5.0,-8.1,-20.0\"` yields `\"-5.0\"`; port 4 on a two-field response
fails Parse. -/
theorem read_power_from_port_spec_witness :
    MPM210H.read_power_from_port 0 5 (mpmResponseEnv "-12.3,-5.0,-8.1,-20.0") connectedSt =
      (Except.error (MpmError.parseError
        ("Invalid port number: " ++ toString 5 ++ ". Port must be between 1 and 4.")),
       connectedSt, []) ∧
    MPM210H.read_power_from_port 0 2 (mpmResponseEnv "-12.3,-5.0,-8.1,-20.0") connectedSt =
      (Except.ok "-5.0", ⟨⟨true, 0, 0⟩, ⟨true, 1, 1⟩, 0⟩,
       [Event.mpmSend "READ? 0", Event.mpmRecv "-12.3,-5.0,-8.1,-20.0"]) ∧
    (∃ m, MPM210H.read_power_from_port 0 4 (mpmResponseEnv "-12.3,-5.0") connectedSt =
      (Except.error (MpmError.parseError m), ⟨⟨true, 0, 0⟩, ⟨true, 1, 1⟩, 0⟩,
       [Event.mpmSend "READ? 0", Event.mpmRecv "-12.3,-5.0"])) := by
  refine ⟨(read_power_from_port_spec 0 5 (mpmResponseEnv "-12.3,-5.0,-8.1,-20.0")
      connectedSt).1 (by omega), ?_, ?_⟩
  · have h := ((read_power_from_port_spec 0 2 (mpmResponseEnv "-12.3,-5.0,-8.1,-20.0")
      connectedSt).2 "-12.3,-5.0,-8.1,-20.0" ⟨⟨true, 0, 0⟩, ⟨true, 1, 1⟩, 0⟩
      [Event.mpmSend "READ? 0", Event.mpmRecv "-12.3,-5.0,-8.1,-20.0"]
      (by omega) (by omega) (by decide)).2 (by decide)
    rw [h]
    decide
  · refine ⟨"Response doesn't contain enough values. Expected at least "
        ++ toString (4 - 1 + 1) ++ " values, got "
        ++ toString (strSplitOn "-12.3,-5.0" ",").length, ?_⟩
    exact ((read_power_from_port_spec 0 4 (mpmResponseEnv "-12.3,-5.0")
      connectedSt).2 "-12.3,-5.0" ⟨⟨true, 0, 0⟩, ⟨true, 1, 1⟩, 0⟩
      [Event.mpmSend "READ? 0", Event.mpmRecv "-12.3,-5.0"]
      (by omega) (by omega) (by decide)).1 (by decide)

/-- C9.  For every configured power unit, every CSV serialization consists
of the fixed header `timestamp, current_mA, power_dBm, module` followed by
one row per record with the fields in exactly that order, and the power
column is labeled `power_dBm` (also when the configured unit is
milliwatts). -/
theorem csv_fixed_header_and_row_order (u : PowerUnit) (data : List MeasurementRecord) :
    save_measurements_to_csv data =
      ["timestamp", "current_mA", "power_dBm", "module"] ::
        data.map (fun r => [toString r.timestamp, r.current_ma.render, r.power_dbm,
                            toString r.module]) ∧
    MeasurementRecord.csvHeader.getD 2 "" = "power_dBm" :=
  ⟨rfl, rfl⟩

/-- C10.  For every environment and device-state pair,
`run_basic_current_sweep` and `run_current_sweep` applied to the default
configuration (module 0, port 2, 10 mA to 100 mA in 5 mA steps, 50 ms
stabilization delay, 980 nm, 100 ms averaging, dBm) are the same function:
both delegate to the same internal sweep. -/
theorem run_basic_equals_run_with_default_config (env : Env) (s : SweepSt) :
    run_basic_current_sweep env s =
      run_current_sweep
        { module := 0, port := 2, start_ma := 10, stop_ma := 100, step_ma := 5,
          stabilization_delay_ms := 50, wavelength_nm := 980, averaging_time_ms := 100,
          power_unit := PowerUnit.DBm } env s := rfl
